import Mathlib

/-!
Verification of the Diagram Session Orchestrator (a single-file Streamlit
application, src/app.py) via a shallow embedding.

The program is sequential orchestration: validate an uploaded raster image,
lazily open a memoized external connection, push the image to a remote stage,
and dispatch parameterized completion queries. External outcomes (decoding,
authentication, each remote call, filesystem writes) are supplied by explicit
oracle values, so every function here is total and executable; user-visible
actions and remote calls are recorded as an effect list.
-/

/-- Opaque external connection handle; the program never inspects it. -/
abbrev Conn := Nat

/-- Result of one bound-parameter remote SQL command: a fixed command text plus
positionally bound parameters (a parameter may be a Python None). -/
structure SqlCommand where
  text : String
  params : List (Option String)
deriving DecidableEq

/-- User-visible and remote side effects, in program order. -/
inductive Effect where
  | warning (m : String)
  | errorShown (m : String)
  | successShown (m : String)
  | infoShown (m : String)
  | connectAttempt
  | stageUpload
  | dispatch (q : String) (f : Option String)
  | execSql (cmd : SqlCommand)
deriving DecidableEq

/-- Chat roles, as in the message dictionaries of src/app.py. -/
inductive Role where
  | user
  | assistant
deriving DecidableEq

/-- One chat turn: the {role, content} dictionary appended to
st.session_state.messages. -/
structure ChatMessage where
  role : Role
  content : String
deriving DecidableEq

/-- st.session_state as initialized in src/app.py lines 20 to 27. -/
structure SessionState where
  messages : List ChatMessage
  diagram_uploaded : Bool
  stage_filename : Option String
  connection : Option Conn
deriving DecidableEq

/-- Process state: the Streamlit session plus the st.cache_resource memo cell
for get_snowflake_connection (none = never called; some r = cached result r). -/
structure ProcState where
  sess : SessionState
  cache : Option (Option Conn)
deriving DecidableEq

/-- Outcome of the underlying authentication attempt (key load plus connect):
either a handle or a raised exception message. -/
inductive AuthOutcome where
  | ok (c : Conn)
  | fails (m : String)
deriving DecidableEq

/-- Python truthiness of an optional string: None and the empty string are
falsy, every other string is truthy. -/
def truthyStr : Option String → Bool
  | none => false
  | some s => !(s == "")

/-- Message text used by the source (st.error in get_snowflake_connection). -/
def connectFailMsg : String := "Failed to connect to Snowflake: "

/-- Result of one call of the memoized connection provider. -/
structure ConnCall where
  result : Option Conn
  cache : Option (Option Conn)
  attempted : Bool
  effs : List Effect
deriving DecidableEq

/-- src/app.py lines 29 to 59. The function body catches every exception and
returns None; the st.cache_resource decorator stores whatever the body
returned (a handle or None) and replays it on every later call without
re-running the body. `cache` is the memo cell, `a` the outcome the
authentication would have if it were attempted. -/
def get_snowflake_connection (cache : Option (Option Conn)) (a : AuthOutcome) : ConnCall :=
  match cache with
  | some r => ⟨r, some r, false, []⟩
  | none =>
    match a with
    | AuthOutcome.ok c => ⟨some c, some (some c), true, [Effect.connectAttempt]⟩
    | AuthOutcome.fails m =>
        ⟨none, some none, true, [Effect.connectAttempt, Effect.errorShown (connectFailMsg ++ m)]⟩

/-- Repeated calls of the provider against the memo cell: returns the list of
results, the final cell, and how many actual authentication attempts ran. -/
def runConnCalls : Option (Option Conn) → List AuthOutcome → List (Option Conn) × Option (Option Conn) × Nat
  | cache, [] => ([], cache, 0)
  | cache, a :: as =>
    let cc := get_snowflake_connection cache a
    let r := runConnCalls cc.cache as
    (cc.result :: r.1, r.2.1, (if cc.attempted then 1 else 0) + r.2.2)

/-- Media types accepted by convert_visio_to_image (src/app.py line 69). -/
def allowedImageTypes : List String := ["image/png", "image/jpeg", "image/jpg"]

/-- st.warning text of src/app.py line 74. -/
def exportWarning : String :=
  "Please upload an image file (PNG/JPG) of your Visio diagram. Export your .vsdx file as an image first."

/-- st.error marker for a failed decode (src/app.py line 77). -/
def processErrMsg : String := "Error processing file"

/-- src/app.py lines 61 to 78: accept only the allow-listed media types and
decode (decode success is the oracle `decodeOk`); on a non-listed type warn
and return None; every exception is caught and turns into an error plus None,
so the function never raises. The bitmap content is irrelevant to the
properties here and is modeled as Unit. -/
def convert_visio_to_image (ftype : String) (decodeOk : Bool) : Option Unit × List Effect :=
  if ftype ∈ allowedImageTypes then
    if decodeOk then (some (), [])
    else (none, [Effect.errorShown processErrMsg])
  else (none, [Effect.warning exportWarning])

/-- Outcome of the scratch-file write `open(local_path, 'wb')` followed by
`f.write(image_bytes)` (src/app.py lines 108 to 109): it can succeed, raise
after open already created the file, or raise before any file was created. -/
inductive WriteOutcome where
  | ok
  | failAfterCreate
  | failBeforeCreate
deriving DecidableEq

/-- Environment oracle for one call of upload_image_to_stage: the outcome each
external step would have if reached. `alterStageOk` is recorded for fidelity
but never read, because the source swallows that failure (lines 95 to 98). -/
structure UploadOracle where
  encodeOk : Bool
  cursorOk : Bool
  createStageOk : Bool
  alterStageOk : Bool
  writeOutcome : WriteOutcome
  putOk : Bool
  listResult : Option (List String)
  closeOk : Bool
deriving DecidableEq

/-- st.error marker of the outer except handler (src/app.py line 140). -/
def uploadErrMsg : String := "Error uploading image to stage"

/-- Result of upload_image_to_stage: the returned pair (success, name), whether
the scratch file at tempdir/filename exists after the return, and the
user-visible errors the function itself reported. -/
structure UploadResult where
  success : Bool
  name : Option String
  scratchAfter : Bool
  errs : List Effect
deriving DecidableEq

/-- Shape of every outer-except exit of upload_image_to_stage: the caught
exception is reported and (False, None) returned; `fs` records whether the
scratch file is still present at that moment. -/
def uploadFail (fs : Bool) : UploadResult :=
  ⟨false, none, fs, [Effect.errorShown uploadErrMsg]⟩

/-- Characters after the last slash of the input: `acc` holds the segment
read so far, reset at every slash. -/
def lastSegment : List Char → List Char → List Char
  | [], acc => acc
  | c :: rest, acc => if c = '/' then lastSegment rest [] else lastSegment rest (acc ++ [c])

/-- Base name of a staged path: the segment after the last slash, as computed
by the expression file_path.split called with a slash and indexed with -1 at
src/app.py line 126. -/
def baseName (path : String) : String :=
  String.mk (lastSegment path.data [])

/-- src/app.py lines 124 to 129: scan the listing for the first entry whose
base name equals the desired filename; on a hit resolve to that base name,
otherwise fall back to the desired filename. -/
def resolveStagedName (files : List String) (filename : String) : String :=
  match files.find? (fun fp => baseName fp == filename) with
  | some fp => baseName fp
  | none => filename

/-- src/app.py lines 80 to 141. `stale` says whether a scratch file of the
same name already exists at tempdir/filename when the call starts. Control
flow follows the source: encode, cursor, CREATE STAGE, swallowed ALTER STAGE,
delete any stale scratch file, write the scratch file, then a try/finally
covering only PUT, LIST and close, whose finally deletes the scratch file;
the outer except turns any raise into (False, None). -/
def upload_image_to_stage (o : UploadOracle) (stale : Bool) (filename : String) : UploadResult :=
  if o.encodeOk = false then uploadFail stale
  else if o.cursorOk = false then uploadFail stale
  else if o.createStageOk = false then uploadFail stale
  else
    match o.writeOutcome with
    | WriteOutcome.failBeforeCreate => uploadFail false
    | WriteOutcome.failAfterCreate => uploadFail true
    | WriteOutcome.ok =>
      if o.putOk = false then uploadFail false
      else
        match o.listResult with
        | none => uploadFail false
        | some files =>
          if o.closeOk = false then uploadFail false
          else ⟨true, some (resolveStagedName files filename), false, []⟩

/-- All steps of one upload_image_to_stage call succeed. -/
def uploadOk (o : UploadOracle) : Bool :=
  o.encodeOk && o.cursorOk && o.createStageOk && (o.writeOutcome == WriteOutcome.ok)
    && o.putOk && o.listResult.isSome && o.closeOk

/-- The fixed command text sent by query_cortex_complete (src/app.py lines 149
to 155), whitespace normalized; \x27 is the single-quote character. -/
def cortexSqlText : String :=
  "SELECT SNOWFLAKE.CORTEX.COMPLETE(\x27claude-3-5-sonnet\x27, %s, TO_FILE(\x27@network_diagrams\x27, %s)) as response"

/-- The command actually executed: constant text, with the question and the
stage filename bound positionally (src/app.py line 158). -/
def cortexCommand (q : String) (f : Option String) : SqlCommand :=
  ⟨cortexSqlText, [some q, f]⟩

/-- Fallback text of src/app.py line 165. -/
def noResponseMsg : String := "No response received from Cortex Complete"

/-- Outcome of the remote completion call: an exception during execute or
fetch, a row without usable RESPONSE text (or no row), or response text. -/
inductive QueryOutcome where
  | raiseErr (m : String)
  | noResponse
  | response (t : String)
deriving DecidableEq

/-- src/app.py lines 143 to 169: execute the fixed parameterized command; an
exception is caught, shown via st.error, and folded into the return value as
the string Error: message; a missing RESPONSE yields the fixed fallback text;
otherwise the response text is returned. The connection handle is used only
as transport, hence unread here. -/
def query_cortex_complete (_conn : Conn) (q : String) (f : Option String) (o : QueryOutcome) :
    String × List Effect :=
  match o with
  | QueryOutcome.raiseErr m =>
      ("Error: " ++ m,
       [Effect.dispatch q f, Effect.execSql (cortexCommand q f),
        Effect.errorShown ("Error querying Cortex: " ++ m)])
  | QueryOutcome.noResponse =>
      (noResponseMsg, [Effect.dispatch q f, Effect.execSql (cortexCommand q f)])
  | QueryOutcome.response t =>
      (t, [Effect.dispatch q f, Effect.execSql (cortexCommand q f)])

/-- Lazy initialization step shared by both handlers (src/app.py lines 190 to
192 and 215 to 217): call the memoized provider only when the session holds
no connection yet. -/
def connectIfNeeded (p : ProcState) (a : AuthOutcome) : ConnCall :=
  match p.sess.connection with
  | some c => ⟨some c, p.cache, false, []⟩
  | none => get_snowflake_connection p.cache a

/-- st.success text of src/app.py line 202 (leading check mark elided). -/
def uploadOkMsg : String := "Diagram uploaded successfully"

/-- st.error text of src/app.py line 204. -/
def uploadFailMsg : String := "Failed to upload diagram to Snowflake stage"

/-- st.error text of src/app.py line 206. -/
def connectFailShortMsg : String := "Unable to connect to Snowflake"

/-- st.error text of src/app.py line 245. -/
def connConfigErrMsg : String := "Unable to connect to Snowflake. Please check your configuration."

/-- st.info text of src/app.py line 247 (leading emoji elided). -/
def uploadPromptMsg : String := "Upload a diagram to start asking questions"

/-- One user event together with the environment outcomes its handler would
observe if it reached the corresponding external calls. -/
inductive Event where
  | fileUploaded (ftype : String) (decodeOk : Bool) (a : AuthOutcome) (ou : UploadOracle) (stale : Bool)
  | chatSubmitted (prompt : String) (a : AuthOutcome) (oq : QueryOutcome)
  | clearPressed

/-- src/app.py lines 181 to 206: ingest the file; when a bitmap came back,
lazily connect, and with a connection upload under the fixed desired name
diagram.png; only a truthy (success, name) pair marks the session uploaded. -/
def handleFileUploaded (p : ProcState) (ftype : String) (decodeOk : Bool) (a : AuthOutcome)
    (ou : UploadOracle) (stale : Bool) : ProcState × List Effect :=
  match convert_visio_to_image ftype decodeOk with
  | (none, effs) => (p, effs)
  | (some _, effs) =>
    let cc := connectIfNeeded p a
    match cc.result with
    | some c =>
      let ur := upload_image_to_stage ou stale "diagram.png"
      if ur.success && truthyStr ur.name then
        (⟨{ p.sess with connection := some c, stage_filename := ur.name, diagram_uploaded := true },
          cc.cache⟩,
         effs ++ cc.effs ++ [Effect.stageUpload] ++ ur.errs ++ [Effect.successShown uploadOkMsg])
      else
        (⟨{ p.sess with connection := some c }, cc.cache⟩,
         effs ++ cc.effs ++ [Effect.stageUpload] ++ ur.errs ++ [Effect.errorShown uploadFailMsg])
    | none =>
      (⟨{ p.sess with connection := none }, cc.cache⟩,
       effs ++ cc.effs ++ [Effect.errorShown connectFailShortMsg])

/-- src/app.py lines 211 to 247: the chat section renders only when a diagram
is staged; it lazily connects; with a connection, a truthy prompt appends the
user turn, dispatches the query against the staged filename, and appends the
returned string as the assistant turn. -/
def handleChatSubmitted (p : ProcState) (prompt : String) (a : AuthOutcome) (oq : QueryOutcome) :
    ProcState × List Effect :=
  if p.sess.diagram_uploaded then
    let cc := connectIfNeeded p a
    match cc.result with
    | some c =>
      if prompt = "" then (⟨{ p.sess with connection := some c }, cc.cache⟩, cc.effs)
      else
        let qr := query_cortex_complete c prompt p.sess.stage_filename oq
        let msgs := p.sess.messages ++ [⟨Role.user, prompt⟩, ⟨Role.assistant, qr.1⟩]
        (⟨{ p.sess with connection := some c, messages := msgs }, cc.cache⟩,
         cc.effs ++ qr.2)
    | none =>
      (⟨{ p.sess with connection := none }, cc.cache⟩,
       cc.effs ++ [Effect.errorShown connConfigErrMsg])
  else (p, [Effect.infoShown uploadPromptMsg])

/-- One iteration of the event loop. The clear button exists only while the
transcript is nonempty (src/app.py lines 249 to 253) and empties exactly the
transcript. -/
def step (p : ProcState) (e : Event) : ProcState × List Effect :=
  match e with
  | Event.fileUploaded ft d a ou stale => handleFileUploaded p ft d a ou stale
  | Event.chatSubmitted q a oq => handleChatSubmitted p q a oq
  | Event.clearPressed =>
    if p.sess.messages.isEmpty then (p, [])
    else (⟨{ p.sess with messages := [] }, p.cache⟩, [])

/-- Fresh session of src/app.py lines 20 to 27, with the resource cache empty. -/
def initState : ProcState := ⟨⟨[], false, none, none⟩, none⟩

/-- States the event loop can reach from a fresh session under any sequence of
events and environment outcomes. -/
inductive Reachable : ProcState → Prop
  | init : Reachable initState
  | next {p : ProcState} (e : Event) : Reachable p → Reachable (step p e).1

/-! ## Helper lemmas -/

/-- The listing scan can only resolve to the desired name itself, since the
match condition compares base names against that very name. -/
theorem resolveStagedName_eq (files : List String) (fn : String) :
    resolveStagedName files fn = fn := by
  unfold resolveStagedName
  cases h : files.find? (fun fp => baseName fp == fn) with
  | none => rfl
  | some fp =>
    have hb := List.find?_some h
    simpa using hb

/-- A successful upload returns exactly the desired filename. -/
theorem upload_success_name (o : UploadOracle) (stale : Bool) (fn : String)
    (h : (upload_image_to_stage o stale fn).success = true) :
    (upload_image_to_stage o stale fn).name = some fn := by
  unfold upload_image_to_stage at h ⊢
  repeat' split at h
  all_goals simp_all [uploadFail, resolveStagedName_eq]

/-- Any failing step makes upload_image_to_stage report the error and return
(False, None). -/
theorem upload_failure_parts (o : UploadOracle) (stale : Bool) (fn : String)
    (h : uploadOk o = false) :
    (upload_image_to_stage o stale fn).success = false ∧
    (upload_image_to_stage o stale fn).name = none ∧
    (upload_image_to_stage o stale fn).errs = [Effect.errorShown uploadErrMsg] := by
  unfold uploadOk at h
  unfold upload_image_to_stage
  repeat' split
  all_goals simp_all [uploadFail, Option.isSome]

/-- upload_image_to_stage never emits a dispatch effect. -/
theorem upload_no_dispatch (o : UploadOracle) (stale : Bool) (fn : String)
    (q : String) (f : Option String) :
    Effect.dispatch q f ∉ (upload_image_to_stage o stale fn).errs := by
  unfold upload_image_to_stage
  repeat' split
  all_goals simp [uploadFail]

/-- convert_visio_to_image never emits a dispatch effect. -/
theorem convert_no_dispatch (ft : String) (d : Bool) (q : String) (f : Option String) :
    Effect.dispatch q f ∉ (convert_visio_to_image ft d).2 := by
  unfold convert_visio_to_image
  repeat' split
  all_goals simp

/-- The connection provider never emits a dispatch effect. -/
theorem connectIfNeeded_no_dispatch (p : ProcState) (a : AuthOutcome)
    (q : String) (f : Option String) :
    Effect.dispatch q f ∉ (connectIfNeeded p a).effs := by
  unfold connectIfNeeded get_snowflake_connection
  cases p.sess.connection <;> cases p.cache <;> cases a <;> simp

/-- Once the memo cell is filled, every later call replays the cached value
and runs no authentication attempt. -/
theorem runConnCalls_cached (v : Option Conn) (as : List AuthOutcome) :
    runConnCalls (some v) as = (List.replicate as.length v, some v, 0) := by
  induction as with
  | nil => rfl
  | cons a as ih => simp [runConnCalls, get_snowflake_connection, ih, List.replicate]

/-- Every event either leaves the upload state (flag and staged name)
untouched, or establishes the uploaded flag together with the constant staged
name diagram.png. -/
theorem step_stage_evolution (p : ProcState) (e : Event) :
    ((step p e).1.sess.diagram_uploaded = p.sess.diagram_uploaded ∧
     (step p e).1.sess.stage_filename = p.sess.stage_filename) ∨
    ((step p e).1.sess.diagram_uploaded = true ∧
     (step p e).1.sess.stage_filename = some "diagram.png") := by
  cases e with
  | clearPressed =>
    left
    simp only [step]
    split
    · exact ⟨rfl, rfl⟩
    · exact ⟨rfl, rfl⟩
  | chatSubmitted q a oq =>
    left
    simp only [step, handleChatSubmitted]
    split
    · split
      · split
        · exact ⟨rfl, rfl⟩
        · exact ⟨rfl, rfl⟩
      · exact ⟨rfl, rfl⟩
    · exact ⟨rfl, rfl⟩
  | fileUploaded ft d a ou stale =>
    simp only [step, handleFileUploaded]
    split
    · left; exact ⟨rfl, rfl⟩
    · split
      · split
        · right
          rename_i heq c hcond
          have hs : (upload_image_to_stage ou stale "diagram.png").success = true :=
            (Bool.and_eq_true_iff.mp hcond).1
          have hn := upload_success_name ou stale "diagram.png" hs
          exact ⟨rfl, by simpa using hn⟩
        · left; exact ⟨rfl, rfl⟩
      · left; exact ⟨rfl, rfl⟩

/-- Invariant of every reachable state: once the uploaded flag is set the
staged name is the constant diagram.png, and the staged name is never any
other string. -/
theorem reachable_stage_inv (p : ProcState) (h : Reachable p) :
    (p.sess.diagram_uploaded = true → p.sess.stage_filename = some "diagram.png") ∧
    (p.sess.stage_filename = none ∨ p.sess.stage_filename = some "diagram.png") := by
  induction h with
  | init => exact ⟨(fun hc => Bool.noConfusion hc), Or.inl rfl⟩
  | next e hp ih =>
    rename_i q
    rcases step_stage_evolution q e with ⟨h1, h2⟩ | ⟨h1, h2⟩
    · refine ⟨?_, ?_⟩
      · intro hu
        rw [h2]
        exact ih.1 (h1 ▸ hu)
      · rw [h2]; exact ih.2
    · exact ⟨(fun _ => h2), Or.inr h2⟩

/-- The upload handler never reaches the Query Dispatcher. -/
theorem fileUploaded_no_dispatch (p : ProcState) (ft : String) (d : Bool) (a : AuthOutcome)
    (ou : UploadOracle) (stale : Bool) (q : String) (f : Option String) :
    Effect.dispatch q f ∉ (handleFileUploaded p ft d a ou stale).2 := by
  have h1 := convert_no_dispatch ft d q f
  have h2 := connectIfNeeded_no_dispatch p a q f
  have h3 := upload_no_dispatch ou stale "diagram.png" q f
  simp only [handleFileUploaded]
  split
  · rename_i effs heq
    rw [heq] at h1
    simpa using h1
  · rename_i v effs heq
    rw [heq] at h1
    simp only at h1
    split
    · split
      · simp [List.mem_append, h1, h2, h3]
      · simp [List.mem_append, h1, h2, h3]
    · simp [List.mem_append, h1, h2]

/-- With the uploaded flag set and a connection available, the chat handler
leaves that connection in the session. -/
theorem chat_connection_after (p : ProcState) (pr : String) (a : AuthOutcome) (oq : QueryOutcome)
    (hu : p.sess.diagram_uploaded = true) (c : Conn)
    (hc : (connectIfNeeded p a).result = some c) :
    (handleChatSubmitted p pr a oq).1.sess.connection = some c := by
  simp only [handleChatSubmitted]
  rw [if_pos hu]
  split
  · rename_i c2 heq
    rw [hc] at heq
    injection heq with h
    subst h
    split <;> rfl
  · rename_i heq
    rw [hc] at heq
    exact Option.noConfusion heq

/-- A dispatch effect of the chat handler certifies the guards the source
checks on the way in: the uploaded flag, the question as submitted, the staged
filename as stored, and a live connection in the resulting session. -/
theorem chat_dispatch_inv (p : ProcState) (pr : String) (a : AuthOutcome) (oq : QueryOutcome)
    (q : String) (f : Option String)
    (hmem : Effect.dispatch q f ∈ (handleChatSubmitted p pr a oq).2) :
    p.sess.diagram_uploaded = true ∧ q = pr ∧ f = p.sess.stage_filename ∧
    (handleChatSubmitted p pr a oq).1.sess.connection ≠ none := by
  have h2 := connectIfNeeded_no_dispatch p a q f
  cases hbu : p.sess.diagram_uploaded with
  | false =>
    exfalso
    simp only [handleChatSubmitted] at hmem
    rw [if_neg (by simp [hbu])] at hmem
    simp at hmem
  | true =>
    simp only [handleChatSubmitted] at hmem
    rw [if_pos hbu] at hmem
    split at hmem
    · rename_i c2 heq
      have hconn := chat_connection_after p pr a oq hbu c2 heq
      split at hmem
      · exact absurd hmem h2
      · have hm2 : Effect.dispatch q f ∈
            (connectIfNeeded p a).effs ++ (query_cortex_complete c2 pr p.sess.stage_filename oq).2 :=
          hmem
        rw [List.mem_append] at hm2
        rcases hm2 with hm | hm
        · exact absurd hm h2
        · have hqf : q = pr ∧ f = p.sess.stage_filename := by
            cases oq <;> simp [query_cortex_complete] at hm <;> tauto
          refine ⟨rfl, hqf.1, hqf.2, ?_⟩
          rw [hconn]
          simp
    · exfalso
      have hm2 : Effect.dispatch q f ∈
          (connectIfNeeded p a).effs ++ [Effect.errorShown connConfigErrMsg] := hmem
      rw [List.mem_append] at hm2
      rcases hm2 with hm | hm
      · exact h2 hm
      · simp at hm

/-- Upload oracle in which every step succeeds and the listing shows the
staged object under the stage root. -/
def okUpload : UploadOracle :=
  ⟨true, true, true, true, WriteOutcome.ok, true, some ["network_diagrams/diagram.png"], true⟩

/-- Upload oracle in which the PUT transfer raises. -/
def badUpload : UploadOracle :=
  ⟨true, true, true, true, WriteOutcome.ok, false, none, true⟩

/-- A successful first upload event for a PNG file. -/
def demoUploadEvent : Event :=
  Event.fileUploaded "image/png" true (AuthOutcome.ok 1) okUpload false

/-- Session state right after the successful demo upload. -/
def demoState1 : ProcState := (step initState demoUploadEvent).1

/-- A chat submission against the staged diagram. -/
def demoChatEvent : Event :=
  Event.chatSubmitted "What database is shown?" (AuthOutcome.ok 1)
    (QueryOutcome.response "It shows a Snowflake database")

/-- Session state right after the demo chat exchange. -/
def demoState2 : ProcState := (step demoState1 demoChatEvent).1

/-! ## Claim theorems -/

/-- C1: in every reachable state of the event loop, a dispatch to the Query
Dispatcher (query_cortex_complete) happens only when the diagram_uploaded flag
is set, the filename handed to the dispatcher is the staged non-null name
diagram.png, and the session connection at dispatch time is non-null. -/
theorem dispatcher_guarded (p : ProcState) (e : Event) (q : String) (f : Option String)
    (hr : Reachable p) (hmem : Effect.dispatch q f ∈ (step p e).2) :
    p.sess.diagram_uploaded = true ∧ f = some "diagram.png" ∧
    p.sess.stage_filename = some "diagram.png" ∧
    (step p e).1.sess.connection ≠ none := by
  have hinv := reachable_stage_inv p hr
  cases e with
  | clearPressed =>
    exfalso
    simp only [step] at hmem
    split at hmem
    · simp at hmem
    · simp at hmem
  | fileUploaded ft d a ou stale =>
    exfalso
    simp only [step] at hmem
    exact fileUploaded_no_dispatch p ft d a ou stale q f hmem
  | chatSubmitted pr a oq =>
    simp only [step] at hmem ⊢
    have h := chat_dispatch_inv p pr a oq q f hmem
    have hst : p.sess.stage_filename = some "diagram.png" := hinv.1 h.1
    refine ⟨h.1, ?_, hst, h.2.2.2⟩
    rw [h.2.2.1]
    exact hst

/-- C1 witness: a concrete run that uploads a PNG and then submits a chat
question, exercising the dispatcher under all three guards. -/
theorem dispatcher_guarded_witness :
    demoState1.sess.diagram_uploaded = true ∧
    (some "diagram.png" : Option String) = some "diagram.png" ∧
    demoState1.sess.stage_filename = some "diagram.png" ∧
    (step demoState1 demoChatEvent).1.sess.connection ≠ none :=
  dispatcher_guarded demoState1 demoChatEvent "What database is shown?" (some "diagram.png")
    (Reachable.next demoUploadEvent Reachable.init) (by decide)

/-- C2 counterexample: when the scratch write itself raises after open has
already created the file (for example the disk filling up during f.write),
the failure is caught and reported, yet the scratch file is still present
when upload_image_to_stage returns, because the try/finally that deletes it
only begins after the write (src/app.py line 111). -/
theorem scratch_cleanup_cex :
    (upload_image_to_stage
        ⟨true, true, true, true, WriteOutcome.failAfterCreate, true, some [], true⟩
        false "diagram.png").success = false ∧
    (upload_image_to_stage
        ⟨true, true, true, true, WriteOutcome.failAfterCreate, true, some [], true⟩
        false "diagram.png").scratchAfter = true :=
  ⟨rfl, rfl⟩

/-- C2 amended: the scratch file is absent when upload_image_to_stage returns
provided the steps up to and including the scratch write completed (so on the
success path and on every failure during PUT, LIST or cursor close); a raise
during the write itself, or an earlier raise while a stale scratch file
exists, can leave the file behind. -/
theorem scratch_cleanup (o : UploadOracle) (stale : Bool) (fn : String)
    (h : o.encodeOk = true ∧ o.cursorOk = true ∧ o.createStageOk = true ∧
         o.writeOutcome = WriteOutcome.ok) :
    (upload_image_to_stage o stale fn).scratchAfter = false := by
  obtain ⟨h1, h2, h3, h4⟩ := h
  simp only [upload_image_to_stage, h1, h2, h3, h4]
  repeat' split
  all_goals simp_all [uploadFail]

/-- C2 amended witness: the all-success run ends with the scratch file gone. -/
theorem scratch_cleanup_witness :
    (upload_image_to_stage okUpload false "diagram.png").scratchAfter = false :=
  scratch_cleanup okUpload false "diagram.png" ⟨rfl, rfl, rfl, rfl⟩

/-- C3: starting from an empty memo cell, any nonempty sequence of calls of
the provider performs exactly one authentication attempt and every call
returns the one cached result, also when that first attempt failed and the
cached result is null. -/
theorem connection_memoized (auths : List AuthOutcome) (h : auths ≠ []) :
    (runConnCalls none auths).2.2 = 1 ∧
    ∃ v, (runConnCalls none auths).1 = List.replicate auths.length v := by
  cases auths with
  | nil => exact absurd rfl h
  | cons a as =>
    cases a with
    | ok c =>
      refine ⟨?_, some c, ?_⟩ <;>
        simp [runConnCalls, get_snowflake_connection, runConnCalls_cached, List.replicate]
    | fails m =>
      refine ⟨?_, none, ?_⟩ <;>
        simp [runConnCalls, get_snowflake_connection, runConnCalls_cached, List.replicate]

/-- C3 witness: a failing first call followed by a call whose authentication
would succeed still yields one attempt and the cached null both times. -/
theorem connection_memoized_witness :
    (runConnCalls none [AuthOutcome.fails "bad key", AuthOutcome.ok 7]).2.2 = 1 ∧
    ∃ v, (runConnCalls none [AuthOutcome.fails "bad key", AuthOutcome.ok 7]).1 =
      List.replicate ([AuthOutcome.fails "bad key", AuthOutcome.ok 7] : List AuthOutcome).length v :=
  connection_memoized [AuthOutcome.fails "bad key", AuthOutcome.ok 7] (List.cons_ne_nil _ _)

/-- C4: the command text executed by query_cortex_complete is one fixed
constant independent of the question and the staged filename (any two runs
produce the identical string); both values travel only as bound parameters. -/
theorem query_parameterized (q1 q2 : String) (f1 f2 : Option String) (c : Conn) (o : QueryOutcome) :
    (cortexCommand q1 f1).text = (cortexCommand q2 f2).text ∧
    (cortexCommand q1 f1).params = [some q1, f1] ∧
    Effect.execSql (cortexCommand q1 f1) ∈ (query_cortex_complete c q1 f1 o).2 := by
  refine ⟨rfl, rfl, ?_⟩
  cases o <;> simp [query_cortex_complete]

/-- C5 counterexample: in the reachable state where a diagram is already
staged, a later failing upload returns (False, None) but the caller leaves
diagram_uploaded true and stage_filename set, not the claimed
not-uploaded state. -/
theorem upload_failure_state_cex :
    Reachable demoState1 ∧
    demoState1.sess.diagram_uploaded = true ∧
    (upload_image_to_stage badUpload false "diagram.png").success = false ∧
    (upload_image_to_stage badUpload false "diagram.png").name = none ∧
    (step demoState1
      (Event.fileUploaded "image/png" true (AuthOutcome.ok 1) badUpload false)).1.sess.diagram_uploaded
      = true ∧
    (step demoState1
      (Event.fileUploaded "image/png" true (AuthOutcome.ok 1) badUpload false)).1.sess.stage_filename
      = some "diagram.png" :=
  ⟨Reachable.next demoUploadEvent Reachable.init, by decide, by decide, by decide,
   by decide, by decide⟩

/-- With a failed upload the handler leaves the upload state of the session
exactly as it was. -/
theorem fileUploaded_failed_frame (p : ProcState) (ft : String) (d : Bool) (a : AuthOutcome)
    (o : UploadOracle) (stale : Bool)
    (hs : (upload_image_to_stage o stale "diagram.png").success = false) :
    (handleFileUploaded p ft d a o stale).1.sess.diagram_uploaded = p.sess.diagram_uploaded ∧
    (handleFileUploaded p ft d a o stale).1.sess.stage_filename = p.sess.stage_filename := by
  simp only [handleFileUploaded]
  split
  · exact ⟨rfl, rfl⟩
  · split
    · rw [if_neg (by simp [hs])]
      exact ⟨rfl, rfl⟩
    · exact ⟨rfl, rfl⟩

/-- C5 amended: when any step of upload_image_to_stage raises, the exception
is caught at the component boundary, reported, and exactly (False, None) is
returned; the caller then leaves the upload state of the session unchanged —
so it remains not uploaded exactly when it was not uploaded before the
attempt. -/
theorem upload_failure_contract (o : UploadOracle) (stale : Bool) (fn : String)
    (p : ProcState) (ft : String) (d : Bool) (a : AuthOutcome)
    (h : uploadOk o = false) :
    (upload_image_to_stage o stale fn).success = false ∧
    (upload_image_to_stage o stale fn).name = none ∧
    (upload_image_to_stage o stale fn).errs = [Effect.errorShown uploadErrMsg] ∧
    (step p (Event.fileUploaded ft d a o stale)).1.sess.diagram_uploaded
      = p.sess.diagram_uploaded ∧
    (step p (Event.fileUploaded ft d a o stale)).1.sess.stage_filename
      = p.sess.stage_filename := by
  have hparts := upload_failure_parts o stale fn h
  have hframe := fileUploaded_failed_frame p ft d a o stale
    (upload_failure_parts o stale "diagram.png" h).1
  exact ⟨hparts.1, hparts.2.1, hparts.2.2, hframe.1, hframe.2⟩

/-- C5 amended witness: the PUT-failure upload on a fresh session returns
(False, None), reports the error, and leaves the fresh not-uploaded state. -/
theorem upload_failure_contract_witness :
    (upload_image_to_stage badUpload false "diagram.png").success = false ∧
    (upload_image_to_stage badUpload false "diagram.png").name = none ∧
    (upload_image_to_stage badUpload false "diagram.png").errs
      = [Effect.errorShown uploadErrMsg] ∧
    (step initState
      (Event.fileUploaded "image/png" true (AuthOutcome.ok 1) badUpload false)).1.sess.diagram_uploaded
      = initState.sess.diagram_uploaded ∧
    (step initState
      (Event.fileUploaded "image/png" true (AuthOutcome.ok 1) badUpload false)).1.sess.stage_filename
      = initState.sess.stage_filename :=
  upload_failure_contract badUpload false "diagram.png" initState "image/png" true
    (AuthOutcome.ok 1) (by decide)

/-- C6: when the post-upload listing holds an entry whose base name equals the
desired name, the resolution of upload_image_to_stage is exactly that base
name; when no entry matches, it is the originally desired name. -/
theorem resolve_listing (files : List String) (fn : String) :
    ((∃ e ∈ files, baseName e = fn) →
      ∃ e ∈ files, baseName e = fn ∧ resolveStagedName files fn = baseName e) ∧
    ((¬ ∃ e ∈ files, baseName e = fn) → resolveStagedName files fn = fn) := by
  refine ⟨?_, ?_⟩
  · rintro ⟨e, he, hb⟩
    refine ⟨e, he, hb, ?_⟩
    rw [resolveStagedName_eq, hb]
  · intro _
    exact resolveStagedName_eq files fn

/-- C6 witness: a listing that shows the staged object under the stage root
resolves to its base name. -/
theorem resolve_listing_witness :
    ∃ e ∈ ["network_diagrams/diagram.png"], baseName e = "diagram.png" ∧
      resolveStagedName ["network_diagrams/diagram.png"] "diagram.png" = baseName e :=
  (resolve_listing ["network_diagrams/diagram.png"] "diagram.png").1 (by decide)

/-- C7: a file whose declared media type is outside the raster allow-list
makes the Image Ingestor warn and return null (it is total, hence never
raises), and the upload handler then changes nothing and produces no remote
side effect: the whole event emits exactly the warning, so no connection
attempt and no stage upload occur. -/
theorem reject_non_raster (ft : String) (d : Bool) (p : ProcState) (a : AuthOutcome)
    (ou : UploadOracle) (stale : Bool) (h : ft ∉ allowedImageTypes) :
    convert_visio_to_image ft d = (none, [Effect.warning exportWarning]) ∧
    step p (Event.fileUploaded ft d a ou stale) = (p, [Effect.warning exportWarning]) := by
  have hc : convert_visio_to_image ft d = (none, [Effect.warning exportWarning]) := by
    unfold convert_visio_to_image
    rw [if_neg h]
  refine ⟨hc, ?_⟩
  simp only [step, handleFileUploaded, hc]

/-- C7 witness: a Visio media type is rejected with only the warning. -/
theorem reject_non_raster_witness :
    convert_visio_to_image "application/vnd.ms-visio.drawing" true
      = (none, [Effect.warning exportWarning]) ∧
    step initState
        (Event.fileUploaded "application/vnd.ms-visio.drawing" true (AuthOutcome.ok 1)
          okUpload false)
      = (initState, [Effect.warning exportWarning]) :=
  reject_non_raster "application/vnd.ms-visio.drawing" true initState (AuthOutcome.ok 1)
    okUpload false (by decide)

/-- C8: query_cortex_complete is total and always yields a string: a raise
during the remote call folds into the text Error: message, a missing RESPONSE
yields the fixed no-response text, and otherwise the response text is
returned; in the chat handler that string is appended to the transcript as
the assistant turn right after the user turn. -/
theorem query_error_folding (c : Conn) (q : String) (f : Option String) :
    (∀ m, (query_cortex_complete c q f (QueryOutcome.raiseErr m)).1 = "Error: " ++ m) ∧
    (query_cortex_complete c q f QueryOutcome.noResponse).1 = noResponseMsg ∧
    (∀ t, (query_cortex_complete c q f (QueryOutcome.response t)).1 = t) ∧
    (∀ (oq : QueryOutcome) (p : ProcState) (a : AuthOutcome),
      p.sess.diagram_uploaded = true → p.sess.connection = some c →
      p.sess.stage_filename = f → ¬ q = "" →
      (step p (Event.chatSubmitted q a oq)).1.sess.messages =
        p.sess.messages ++
          [⟨Role.user, q⟩, ⟨Role.assistant, (query_cortex_complete c q f oq).1⟩]) := by
  refine ⟨fun m => rfl, rfl, fun t => rfl, ?_⟩
  intro oq p a h1 h2 h3 h4
  have hcc : connectIfNeeded p a = ⟨some c, p.cache, false, []⟩ := by
    unfold connectIfNeeded
    rw [h2]
  simp only [step, handleChatSubmitted, hcc]
  rw [if_pos h1]
  rw [if_neg h4, h3]

/-- C8 witness: the demo chat exchange appends exactly the user turn and the
returned assistant text. -/
theorem query_error_folding_witness :
    (step demoState1 demoChatEvent).1.sess.messages =
      demoState1.sess.messages ++
        [⟨Role.user, "What database is shown?"⟩,
         ⟨Role.assistant,
          (query_cortex_complete 1 "What database is shown?" (some "diagram.png")
            (QueryOutcome.response "It shows a Snowflake database")).1⟩] :=
  (query_error_folding 1 "What database is shown?" (some "diagram.png")).2.2.2
    (QueryOutcome.response "It shows a Snowflake database") demoState1 (AuthOutcome.ok 1)
    (by decide) (by decide) (by decide) (by decide)

/-- C9: whenever the clear action is available (nonempty transcript), it
empties the transcript and changes nothing else: flag, staged name,
connection and the resource cache are untouched, and nothing is displayed. -/
theorem clear_conversation_frame (p : ProcState) (h : p.sess.messages ≠ []) :
    (step p Event.clearPressed).1.sess.messages = [] ∧
    (step p Event.clearPressed).1.sess.diagram_uploaded = p.sess.diagram_uploaded ∧
    (step p Event.clearPressed).1.sess.stage_filename = p.sess.stage_filename ∧
    (step p Event.clearPressed).1.sess.connection = p.sess.connection ∧
    (step p Event.clearPressed).1.cache = p.cache ∧
    (step p Event.clearPressed).2 = [] := by
  have hne : p.sess.messages.isEmpty = false := by
    cases hm : p.sess.messages with
    | nil => exact absurd hm h
    | cons x xs => rfl
  simp [step, hne]

/-- C9 witness: clearing after the demo exchange empties the transcript and
keeps the staged diagram and connection. -/
theorem clear_conversation_frame_witness :
    (step demoState2 Event.clearPressed).1.sess.messages = [] ∧
    (step demoState2 Event.clearPressed).1.sess.diagram_uploaded
      = demoState2.sess.diagram_uploaded ∧
    (step demoState2 Event.clearPressed).1.sess.stage_filename
      = demoState2.sess.stage_filename ∧
    (step demoState2 Event.clearPressed).1.sess.connection = demoState2.sess.connection ∧
    (step demoState2 Event.clearPressed).1.cache = demoState2.cache ∧
    (step demoState2 Event.clearPressed).2 = [] :=
  clear_conversation_frame demoState2 (by decide)

/-- C10: a successful upload_image_to_stage always resolves to exactly the
desired name it was given, because the listing scan only accepts entries
whose base name already equals that name; consequently in every reachable
state the stored stage_filename is either unset or the constant
diagram.png. -/
theorem resolved_name_constant (o : UploadOracle) (stale : Bool) (fn : String) (p : ProcState)
    (hs : (upload_image_to_stage o stale fn).success = true) (hr : Reachable p) :
    (upload_image_to_stage o stale fn).name = some fn ∧
    (p.sess.stage_filename = none ∨ p.sess.stage_filename = some "diagram.png") :=
  ⟨upload_success_name o stale fn hs, (reachable_stage_inv p hr).2⟩

/-- C10 witness: the all-success upload resolves to diagram.png and the demo
state stores exactly that constant. -/
theorem resolved_name_constant_witness :
    (upload_image_to_stage okUpload false "diagram.png").name = some "diagram.png" ∧
    (demoState1.sess.stage_filename = none ∨
      demoState1.sess.stage_filename = some "diagram.png") :=
  resolved_name_constant okUpload false "diagram.png" demoState1 (by decide)
    (Reachable.next demoUploadEvent Reachable.init)
